import Mathlib

/-!
Shallow embedding of `r2/r2/lib/voting.py` (reddit vote processing).

The module under verification submits votes to durable queues, consumes
them (one consumer per target kind: links and comments), commits the
vote, maintains the voter liked/disliked cached listings, and fans out
eligible votes to sharded derived-listing update queues (author,
subreddit, domain), which are drained by batch consumers.

Collaborators that live outside this module (the `Vote` model and its
`commit`, `CachedQueryMutator`, `UrlParser`, the stats decorator, the
cache) are modelled from the spec; each such definition carries a doc
comment saying so.  Effectful calls are embedded as a trace of `Event`
values emitted in program order, and the durable vote state as an
explicit `VoteStore` threaded through the consumers.
-/

namespace Voting

/-- Vote direction enum: up / down / none (a retracted vote).  The
source passes the direction through without inspecting it; the spec defines the
three-valued enum.  `neutral` stands for the "none" direction. -/
inductive Dir where
  | up
  | down
  | neutral
deriving DecidableEq, Repr

/-- Modelled from the spec: `Vote.serialize_direction` (in
`r2.models.vote`, outside this module) serializes a direction for the
cache value of a vote intent. -/
def serialize_direction : Dir → String
  | .up => "1"
  | .down => "-1"
  | .neutral => "0"

/-- An account record (`Account`), as resolved by `Account._byID`.
Source field names `_id`, `_id36`, `_fullname` are embedded without the
leading underscore. -/
structure Account where
  id : Nat
  id36 : String
  fullname : String
deriving DecidableEq, Repr

/-- A link record (`Link`), as resolved by `Link._by_fullname`.  The
`votable` field models whether the `Vote` constructor accepts the
runtime type of this target: the source catches `TypeError` from
`Vote(...)` for targets of an invalid type (the constructor itself is
outside this module; spec 4.3 step 4). -/
structure Link where
  fullname : String
  author_id : Nat
  sr_id : Nat
  url : String
  spam : Bool
  deleted : Bool
  votable : Bool
deriving DecidableEq, Repr

/-- A comment record (`Comment`), as resolved by
`Comment._by_fullname`.  `votable` plays the same role as on `Link`. -/
structure Comment where
  fullname : String
  author_id : Nat
  spam : Bool
  deleted : Bool
  num_votes : Nat
  votable : Bool
deriving DecidableEq, Repr

/-- Configuration pulled from the application globals `g` and
`g.live_config` by the source. -/
structure Globals where
  shard_author_query_queues : Bool
  shard_subreddit_query_queues : Bool
  shard_domain_query_queues : Bool
  vote_queue_grace_period : Nat
  comment_vote_update_threshold : Nat
  comment_vote_update_period : Nat
deriving Repr

/-- A parsed vote queue message (the `vote_data` dict built by
`cast_vote` and read back by the consumers after `json.loads`). -/
structure VoteMsg where
  user_id : Nat
  thing_fullname : String
  direction : Dir
  date : Nat
deriving DecidableEq, Repr

/-- Queue names built by the fan-out helpers.  The source builds
strings such as `"author_query_3_q"`; the embedding keeps the same
information (dimension plus optional shard index) in a structured type,
which is injective exactly as the name strings are. -/
inductive Queue where
  | author (shard : Option Nat)
  | subreddit (shard : Option Nat)
  | domain (shard : Option Int)
deriving DecidableEq, Repr

/-- Returns whether a queue is one of the domain fan-out queues. -/
def Queue.isDomain : Queue → Bool
  | .domain _ => true
  | _ => false

/-- One observable effect of the module, in program order. -/
inductive Event where
  | printIgnore (userId : Nat) (thing : String)
  | printProcessing (user thing : String)
  | timerStart (name : String)
  | timerIntermediate (name phase : String)
  | timerStop (name : String)
  | timerFlush (name : String)
  | processorStats (qname : String)
  | lockAcquire (ns key : String) (timeout : Nat)
  | lockRelease (ns key : String)
  | logInvalidType
  | voteCommit (userId : Nat) (thing : String) (dir : Dir)
  | updateUserLiked (userId : Nat) (thing : String) (dir : Dir) (prev : Option Dir)
  | enqueue (queue : Queue) (body : String)
  | addQueries (queries : List String) (items : List String)
  | addToCommentsTree (thing : String)
  | groupFailure (key : String)
  | cacheSet (key value : String) (ttl : Nat)
  | lastModifiedTouch (thing relName : String)
deriving DecidableEq, Repr

/-- Modelled from the spec: the durable `Vote` state is an upsert map
keyed by (actor, target); only the current direction per key is needed
by the claims. -/
def VoteStore : Type := Nat → String → Option Dir

/-- Modelled from the spec: `Vote.commit` (in `r2.models.vote`, outside
this module) upserts the vote keyed by (actor, target), recording the
new direction. -/
def vote_commit (s : VoteStore) (uid : Nat) (thing : String) (d : Dir) : VoteStore :=
  fun u x => if u = uid ∧ x = thing then some d else s u x

/-- `prequeued_vote_key(user, item)` from the source. -/
def prequeued_vote_key (user : Account) (itemFullname : String) : String :=
  "queuedvote:" ++ user.id36 ++ "_" ++ itemFullname

/-- `update_vote_lookups(user, thing, direction)` from the source: set
the intent in the cache with ttl `grace_period + 1`, then touch the
LastModified marker.  The cache write (`g.gencache.set`) is outside
this module and is modelled from the spec as best-effort/non-raising,
so the embedding is a total function producing both events.  `relName`
stands for `VotesByAccount.rel(thing.__class__)._last_modified_name`,
resolved outside this module. -/
def update_vote_lookups (g : Globals) (relName : String) (user : Account)
    (thingFullname : String) (direction : Dir) : List Event :=
  let key := prequeued_vote_key user thingFullname
  let grace_period := g.vote_queue_grace_period
  [Event.cacheSet key (serialize_direction direction) (grace_period + 1),
   Event.lastModifiedTouch user.fullname relName]

/-- The per-user liked/disliked cached listings (`get_liked` /
`get_disliked`), holding target fullnames. -/
structure ListingState where
  liked : List String
  disliked : List String
deriving DecidableEq, Repr

/-- Modelled from the spec: `CachedQueryMutator.delete` removes a
target from a listing. -/
def listingDelete (l : List String) (x : String) : List String :=
  l.filter (fun y => y != x)

/-- Modelled from the spec: `CachedQueryMutator.insert` inserts a
target into a listing; insertion of an already-present target does not
duplicate it (spec 4.5). -/
def listingInsert (l : List String) (x : String) : List String :=
  if x ∈ l then l else l ++ [x]

/-- The data of a committed vote that `update_user_liked` consults: the
voter, the target, the new direction, and the direction of the previous
vote on the same (actor, target) pair, if any. -/
structure VoteRec where
  user_id : Nat
  thing_fullname : String
  direction : Dir
  previous : Option Dir
deriving DecidableEq, Repr

/-- `update_user_liked(vote)` from the source: if there was a previous
vote, delete the target from the listing matching its direction; then
insert the target into the listing matching the new direction (liked
for up, disliked for down, neither otherwise). -/
def update_user_liked (v : VoteRec) (s : ListingState) : ListingState :=
  let s1 :=
    match v.previous with
    | some Dir.up => { s with liked := listingDelete s.liked v.thing_fullname }
    | some Dir.down => { s with disliked := listingDelete s.disliked v.thing_fullname }
    | _ => s
  match v.direction with
  | Dir.up => { s1 with liked := listingInsert s1.liked v.thing_fullname }
  | Dir.down => { s1 with disliked := listingInsert s1.disliked v.thing_fullname }
  | Dir.neutral => s1

/-- The sorts maintained for the derived listings (`SORTS` in the
source). -/
def SORTS : List String := ["hot", "top", "controversial"]

/-- Environment of the link vote consumer: globals, the identity and
content lookups, and the external collaborators that the source calls
but that live outside this module.  `hook` is the verdict of the
`vote.validate_vote_data` extension point for a message (`some false`
short-circuits); `affects_score` is the abstract
`vote.effects.affects_score` predicate of the previous and new
direction (the spec treats it as an abstract collaborator judgment);
`hashFn`, `domain_permutations` and `hostname` model `hash()` and
`UrlParser` from the spec. -/
structure LinkEnv where
  g : Globals
  accounts : Nat → Account
  links : String → Link
  hook : VoteMsg → Option Bool
  affects_score : Option Dir → Dir → Bool
  hashFn : String → Int
  domain_permutations : String → List String
  hostname : String → String

/-- `add_to_author_query_q(link)` from the source: enqueue the link
fullname on the author query queue, sharded by `author_id % 10` when
sharding is enabled. -/
def add_to_author_query_q (g : Globals) (link : Link) : List Event :=
  let queue :=
    if g.shard_author_query_queues then Queue.author (some (link.author_id % 10))
    else Queue.author none
  [Event.enqueue queue link.fullname]

/-- `add_to_subreddit_query_q(link)` from the source: enqueue the link
fullname on the subreddit query queue, sharded by `sr_id % 10` when
sharding is enabled. -/
def add_to_subreddit_query_q (g : Globals) (link : Link) : List Event :=
  let queue :=
    if g.shard_subreddit_query_queues then Queue.subreddit (some (link.sr_id % 10))
    else Queue.subreddit none
  [Event.enqueue queue link.fullname]

/-- `add_to_domain_query_q(link)` from the source: skip entirely when
the URL yields no domain permutations; otherwise enqueue on the domain
query queue, sharded by `hash(parsed.hostname) % 10` when sharding is
enabled. -/
def add_to_domain_query_q (env : LinkEnv) (link : Link) : List Event :=
  if env.domain_permutations link.url = [] then []
  else
    let queue :=
      if env.g.shard_domain_query_queues then
        Queue.domain (some (env.hashFn (env.hostname link.url) % 10))
      else Queue.domain none
    [Event.enqueue queue link.fullname]

/-- The body of `process_message` inside `consume_link_vote_queue`, for
one dequeued message: validation-hook check, resolution, the
lock-scoped vote commit and liked/disliked update, then the fan-out
decision and the timer flush.  Returns the emitted events (including
the `amqp_processor` decorator stats, modelled from the spec as flushed
for every consumed message) and the resulting vote store. -/
def process_link_vote (env : LinkEnv) (store : VoteStore) (msg : VoteMsg) :
    List Event × VoteStore :=
  if env.hook msg = some false then
    ([Event.printIgnore msg.user_id msg.thing_fullname,
      Event.processorStats "vote_link_q"], store)
  else
    let user := env.accounts msg.user_id
    let link := env.links msg.thing_fullname
    let lock_key := "vote-" ++ user.id36 ++ "-" ++ link.fullname
    if link.votable then
      let prev := store msg.user_id link.fullname
      let store1 := vote_commit store msg.user_id link.fullname msg.direction
      let vote_valid := prev.isNone || env.affects_score prev msg.direction
      let link_valid := !(link.spam || link.deleted)
      let fanout :=
        if vote_valid && link_valid then
          add_to_author_query_q env.g link ++ add_to_subreddit_query_q env.g link
            ++ add_to_domain_query_q env link
        else []
      ([Event.timerStart "link_vote_processor",
        Event.lockAcquire "voting" lock_key 5,
        Event.printProcessing user.fullname link.fullname,
        Event.voteCommit msg.user_id link.fullname msg.direction,
        Event.timerIntermediate "link_vote_processor" "create_vote_object",
        Event.updateUserLiked msg.user_id link.fullname msg.direction prev,
        Event.timerIntermediate "link_vote_processor" "voter_likes",
        Event.lockRelease "voting" lock_key]
        ++ fanout
        ++ [Event.timerStop "link_vote_processor",
            Event.timerFlush "link_vote_processor",
            Event.processorStats "vote_link_q"], store1)
    else
      ([Event.timerStart "link_vote_processor",
        Event.lockAcquire "voting" lock_key 5,
        Event.printProcessing user.fullname link.fullname,
        Event.logInvalidType,
        Event.lockRelease "voting" lock_key,
        Event.processorStats "vote_link_q"], store)

/-- Environment of the comment vote consumer (see `LinkEnv`). -/
structure CommentEnv where
  g : Globals
  accounts : Nat → Account
  comments : String → Comment
  hook : VoteMsg → Option Bool
  affects_score : Option Dir → Dir → Bool

/-- The `get_comments(author, sort, "all")` precomputed queries touched
by the comment consumer, one per sort. -/
def comment_author_queries (author : Account) : List String :=
  SORTS.map (fun sort => "get_comments/" ++ author.fullname ++ "/" ++ sort ++ "/all")

/-- The body of `process_message` inside `consume_comment_vote_queue`,
for one dequeued message.  The source acquires no lock here and does
not update the voter liked/disliked listings; eligible votes update the
author comment listings and, depending on the vote count against the
configured threshold and period, enqueue the comment for comments-tree
score recomputation. -/
def process_comment_vote (env : CommentEnv) (store : VoteStore) (msg : VoteMsg) :
    List Event × VoteStore :=
  if env.hook msg = some false then
    ([Event.printIgnore msg.user_id msg.thing_fullname,
      Event.processorStats "vote_comment_q"], store)
  else
    let user := env.accounts msg.user_id
    let comment := env.comments msg.thing_fullname
    if comment.votable then
      let prev := store msg.user_id comment.fullname
      let store1 := vote_commit store msg.user_id comment.fullname msg.direction
      let vote_valid := prev.isNone || env.affects_score prev msg.direction
      let comment_valid := !(comment.spam || comment.deleted)
      let fanout :=
        if vote_valid && comment_valid then
          let author := env.accounts comment.author_id
          [Event.addQueries (comment_author_queries author) [comment.fullname],
           Event.timerIntermediate "comment_vote_processor" "author_queries"]
            ++ (if comment.num_votes ≤ env.g.comment_vote_update_threshold
                  ∨ comment.num_votes % env.g.comment_vote_update_period = 0 then
                  [Event.addToCommentsTree comment.fullname]
                else [])
        else []
      ([Event.timerStart "comment_vote_processor",
        Event.printProcessing user.fullname comment.fullname,
        Event.voteCommit msg.user_id comment.fullname msg.direction,
        Event.timerIntermediate "comment_vote_processor" "create_vote_object"]
        ++ fanout
        ++ [Event.timerStop "comment_vote_processor",
            Event.timerFlush "comment_vote_processor",
            Event.processorStats "vote_comment_q"], store1)
    else
      ([Event.timerStart "comment_vote_processor",
        Event.printProcessing user.fullname comment.fullname,
        Event.logInvalidType,
        Event.processorStats "vote_comment_q"], store)

/-- The batch dedup step of the derived-listing consumers:
`link_names = {msg.body for msg in msgs}` followed by the batch
`Link._by_fullname` resolution.  The set comprehension is modelled as
`List.dedup`; `byFullname` models the lookup (outside this module). -/
def resolve_links (byFullname : String → Link) (bodies : List String) : List Link :=
  bodies.dedup.map byFullname

/-- The `defaultdict(list)` grouping loop of the author and subreddit
consumers: one group per distinct key, each group holding all batch
links with that key, in batch order. -/
def groupByKey (key : Link → Nat) (ls : List Link) : List (Nat × List Link) :=
  (ls.map key).dedup.map (fun k => (k, ls.filter (fun l => key l == k)))

/-- The grouping loop of the domain consumer: a link joins one group
per domain permutation of its URL. -/
def groupByDomain (perms : String → List String) (ls : List Link) :
    List (String × List Link) :=
  (ls.flatMap (fun l => perms l.url)).dedup.map
    (fun d => (d, ls.filter (fun l => (perms l.url).contains d)))

/-- The per-group loop shared by the three derived-listing consumers:
for each dimension group, inside the group timer, perform the locked
`add_queries` read-modify-write.  `fails` models whether that locked
update raises for a given group (lock timeout or update failure, both
outside this module); as in the source, an exception propagates out of
the `for` loop, so the remaining groups are not visited.  The `Bool`
result records whether the loop finished without raising. -/
def runGroups {κ : Type} (fails : κ → Bool) (keyStr : κ → String)
    (timerName : String) (mk : κ → List Link → Event) :
    List (κ × List Link) → List Event × Bool
  | [] => ([], true)
  | (k, ls) :: rest =>
    if fails k then
      ([Event.timerStart timerName, Event.groupFailure (keyStr k)], false)
    else
      let r := runGroups fails keyStr timerName mk rest
      ([Event.timerStart timerName, mk k ls, Event.timerStop timerName] ++ r.1, r.2)

/-- Environment of the author query consumer; `author_fails` models a
lock/update failure of the locked `add_queries` call for one author
group. -/
structure AuthorEnv where
  links : String → Link
  accounts : Nat → Account
  author_fails : Nat → Bool

/-- The `get_submitted(author, sort, "all")` precomputed queries, one
per sort. -/
def author_queries (author : Account) : List String :=
  SORTS.map (fun sort => "get_submitted/" ++ author.fullname ++ "/" ++ sort ++ "/all")

/-- The body of `process_message` inside `consume_author_query_queue`:
dedup the batch bodies, resolve the links, group them by `author_id`,
and run the locked per-group listing insertions. -/
def process_author_query_batch (env : AuthorEnv) (bodies : List String) :
    List Event × Bool :=
  runGroups env.author_fails toString "link_vote_processor.author_queries"
    (fun aid ls =>
      Event.addQueries (author_queries (env.accounts aid)) (ls.map Link.fullname))
    (groupByKey Link.author_id (resolve_links env.links bodies))

/-- A subreddit record, as resolved by `Subreddit._byID`. -/
structure Subreddit where
  id : Nat
  name : String
deriving DecidableEq, Repr

/-- Environment of the subreddit query consumer. -/
structure SubredditEnv where
  links : String → Link
  subreddits : Nat → Subreddit
  sr_fails : Nat → Bool

/-- The `get_links(sr, sort, "all")` precomputed queries, one per
sort. -/
def subreddit_queries (sr : Subreddit) : List String :=
  SORTS.map (fun sort => "get_links/" ++ sr.name ++ "/" ++ sort ++ "/all")

/-- The body of `process_message` inside
`consume_subreddit_query_queue`. -/
def process_subreddit_query_batch (env : SubredditEnv) (bodies : List String) :
    List Event × Bool :=
  runGroups env.sr_fails toString "link_vote_processor.subreddit_queries"
    (fun srid ls =>
      Event.addQueries (subreddit_queries (env.subreddits srid)) (ls.map Link.fullname))
    (groupByKey Link.sr_id (resolve_links env.links bodies))

/-- Environment of the domain query consumer; `domain_permutations`
models `UrlParser(...).domain_permutations()` from the spec. -/
structure DomainEnv where
  links : String → Link
  domain_permutations : String → List String
  domain_fails : String → Bool

/-- The `get_domain_links(domain, sort, "all")` precomputed queries,
one per sort. -/
def domain_queries (domain : String) : List String :=
  SORTS.map (fun sort => "get_domain_links/" ++ domain ++ "/" ++ sort ++ "/all")

/-- The body of `process_message` inside `consume_domain_query_queue`. -/
def process_domain_query_batch (env : DomainEnv) (bodies : List String) :
    List Event × Bool :=
  runGroups env.domain_fails id "link_vote_processor.domain_queries"
    (fun d ls => Event.addQueries (domain_queries d) (ls.map Link.fullname))
    (groupByDomain env.domain_permutations (resolve_links env.links bodies))

/-- Returns whether an event is a lock acquisition. -/
def Event.isLockAcquire : Event → Bool
  | .lockAcquire _ _ _ => true
  | _ => false

/-- Returns whether an event is the liked/disliked listing update. -/
def Event.isUpdateUserLiked : Event → Bool
  | .updateUserLiked _ _ _ _ => true
  | _ => false

/-- Returns whether an event is a vote commit. -/
def Event.isVoteCommit : Event → Bool
  | .voteCommit _ _ _ => true
  | _ => false

/-- Returns whether an event enqueues onto a fan-out queue. -/
def Event.isEnqueue : Event → Bool
  | .enqueue _ _ => true
  | _ => false

/-- Returns whether an event is a locked `add_queries` listing
insertion. -/
def Event.isAddQueries : Event → Bool
  | .addQueries _ _ => true
  | _ => false

/-- Returns whether an event enqueues onto a domain fan-out queue. -/
def Event.isDomainEnqueue : Event → Bool
  | .enqueue q _ => q.isDomain
  | _ => false

/-- The event `e` happens between the acquisition and the release of
the named lock in the trace `tr`. -/
def lockScoped (tr : List Event) (ns key : String) (timeout : Nat) (e : Event) : Prop :=
  ∃ pre mid post,
    tr = pre ++ Event.lockAcquire ns key timeout ::
      (mid ++ Event.lockRelease ns key :: post) ∧ e ∈ mid

theorem mem_listingDelete (l : List String) (x y : String) :
    y ∈ listingDelete l x ↔ y ∈ l ∧ y ≠ x := by
  simp [listingDelete, List.mem_filter]

theorem mem_listingInsert (l : List String) (x y : String) :
    y ∈ listingInsert l x ↔ y ∈ l ∨ y = x := by
  unfold listingInsert
  by_cases h : x ∈ l
  · simp only [if_pos h]
    constructor
    · exact Or.inl
    · rintro (hy | rfl) <;> [exact hy; exact h]
  · simp [if_neg h, List.mem_append]

/-- C3: for every committed vote, the liked/disliked update first
removes the target from the listing matching the previous direction
when a previous vote exists, then inserts the target into the liked
listing iff the new direction is up and into the disliked listing iff
it is down; after a change from up to down the liked listing does not
contain the target and the disliked listing does.  Stated as a
membership characterization of the two listings after
`update_user_liked`, plus the up-to-down consequence. -/
theorem c3_liked_listing_update (v : VoteRec) (s : ListingState) :
    (v.thing_fullname ∈ (update_user_liked v s).liked ↔
      v.direction = Dir.up ∨ (v.thing_fullname ∈ s.liked ∧ v.previous ≠ some Dir.up)) ∧
    (v.thing_fullname ∈ (update_user_liked v s).disliked ↔
      v.direction = Dir.down ∨ (v.thing_fullname ∈ s.disliked ∧ v.previous ≠ some Dir.down)) ∧
    (v.previous = some Dir.up → v.direction = Dir.down →
      v.thing_fullname ∉ (update_user_liked v s).liked ∧
      v.thing_fullname ∈ (update_user_liked v s).disliked) := by
  obtain ⟨u, t, d, p⟩ := v
  rcases p with _ | pd
  · cases d <;>
      simp [update_user_liked, mem_listingInsert, mem_listingDelete]
  · cases pd <;> cases d <;>
      simp [update_user_liked, mem_listingInsert, mem_listingDelete]

/-- A sample committed vote that changed from up to down. -/
def voteRecW : VoteRec := ⟨1, "t3_a", Dir.down, some Dir.up⟩

/-- A sample listing state in which the target is currently liked. -/
def listingW : ListingState := ⟨["t3_a", "t3_z"], ["t3_y"]⟩

theorem c3_liked_listing_update_witness :
    ("t3_a" ∈ (update_user_liked voteRecW listingW).liked ↔
      Dir.down = Dir.up ∨ ("t3_a" ∈ listingW.liked ∧ some Dir.up ≠ some Dir.up)) ∧
    ("t3_a" ∈ (update_user_liked voteRecW listingW).disliked ↔
      Dir.down = Dir.down ∨ ("t3_a" ∈ listingW.disliked ∧ some Dir.up ≠ some Dir.down)) ∧
    (some Dir.up = some Dir.up → Dir.down = Dir.down →
      "t3_a" ∉ (update_user_liked voteRecW listingW).liked ∧
      "t3_a" ∈ (update_user_liked voteRecW listingW).disliked) :=
  c3_liked_listing_update voteRecW listingW

/-- C8: every call to the intent recorder writes the serialized vote
intent to the cache under the prequeued-vote key with a time-to-live of
the configured grace period plus one, and touches the last-modified
marker of the actor vote-listing dimension.  The embedding of the cache
write is total (the cache collaborator is modelled from the spec as
best-effort and non-raising), so no failure reaches the caller. -/
theorem c8_record_intent (g : Globals) (relName : String) (user : Account)
    (thingFullname : String) (d : Dir) :
    Event.cacheSet (prequeued_vote_key user thingFullname) (serialize_direction d)
        (g.vote_queue_grace_period + 1)
      ∈ update_vote_lookups g relName user thingFullname d ∧
    Event.lastModifiedTouch user.fullname relName
      ∈ update_vote_lookups g relName user thingFullname d := by
  simp [update_vote_lookups]

/-- Sample configuration: all shard toggles on, grace period 10,
comment vote threshold 5, period 3. -/
def gW : Globals :=
  { shard_author_query_queues := true
    shard_subreddit_query_queues := true
    shard_domain_query_queues := true
    vote_queue_grace_period := 10
    comment_vote_update_threshold := 5
    comment_vote_update_period := 3 }

/-- Sample account. -/
def acctW : Account := ⟨1, "1", "t2_1"⟩

/-- Sample link. -/
def linkW : Link :=
  { fullname := "t3_a", author_id := 7, sr_id := 4, url := "http://example.com/x"
    spam := false, deleted := false, votable := true }

/-- Sample comment with five votes. -/
def commentW : Comment :=
  { fullname := "t1_c", author_id := 2, spam := false, deleted := false
    num_votes := 5, votable := true }

/-- Sample comment vote message. -/
def msgW : VoteMsg := ⟨1, "t1_c", Dir.up, 100⟩

/-- Sample link vote message. -/
def linkMsgW : VoteMsg := ⟨1, "t3_a", Dir.up, 100⟩

/-- The empty vote store. -/
def emptyStore : VoteStore := fun _ _ => none

/-- Sample comment consumer environment: the validation hook abstains,
and a vote affects the score iff it changes the direction. -/
def commentEnvW : CommentEnv :=
  { g := gW, accounts := fun _ => acctW, comments := fun _ => commentW
    hook := fun _ => none, affects_score := fun p d => p != some d }

/-- Sample link consumer environment. -/
def linkEnvW : LinkEnv :=
  { g := gW, accounts := fun _ => acctW, links := fun _ => linkW
    hook := fun _ => none, affects_score := fun p d => p != some d
    hashFn := fun s => (s.length : Int)
    domain_permutations := fun _ => ["example.com", "www.example.com"]
    hostname := fun _ => "example.com" }

/-- C2 counterexample: the comment vote consumer commits a vote while
its trace contains no lock acquisition and no liked/disliked listing
update at all, so the claim that consumers of either target kind
commit under a (actor, target) lock and update the liked/disliked
listing inside it is false for the comment consumer. -/
theorem c2_counterexample :
    Event.voteCommit 1 "t1_c" Dir.up ∈ (process_comment_vote commentEnvW emptyStore msgW).1 ∧
    (process_comment_vote commentEnvW emptyStore msgW).1.all
      (fun e => !e.isLockAcquire && !e.isUpdateUserLiked) = true := by
  decide

/-- The comment vote consumer never acquires a lock and never updates
the voter liked/disliked listings, on any input. -/
theorem process_comment_vote_no_lock (cenv : CommentEnv) (cstore : VoteStore)
    (cmsg : VoteMsg) :
    (process_comment_vote cenv cstore cmsg).1.all
      (fun e => !e.isLockAcquire && !e.isUpdateUserLiked) = true := by
  simp only [process_comment_vote]
  split
  · rfl
  · split
    · split <;> simp [Event.isLockAcquire, Event.isUpdateUserLiked]
    · rfl

/-- C2 (amended): only the link vote consumer acquires the
mutual-exclusion lock, in namespace "voting" with key
`vote-<actor id36>-<target fullname>` and timeout 5, and it performs
both the vote commit and the liked/disliked listing update inside that
lock scope; the comment vote consumer commits its vote with no lock
acquisition and performs no liked/disliked listing update. -/
theorem c2_lock_scope (env : LinkEnv) (store : VoteStore) (msg : VoteMsg)
    (hh : ¬env.hook msg = some false)
    (hv : (env.links msg.thing_fullname).votable = true)
    (cenv : CommentEnv) (cstore : VoteStore) (cmsg : VoteMsg) :
    lockScoped (process_link_vote env store msg).1 "voting"
      ("vote-" ++ (env.accounts msg.user_id).id36 ++ "-"
        ++ (env.links msg.thing_fullname).fullname) 5
      (Event.voteCommit msg.user_id (env.links msg.thing_fullname).fullname msg.direction) ∧
    lockScoped (process_link_vote env store msg).1 "voting"
      ("vote-" ++ (env.accounts msg.user_id).id36 ++ "-"
        ++ (env.links msg.thing_fullname).fullname) 5
      (Event.updateUserLiked msg.user_id (env.links msg.thing_fullname).fullname
        msg.direction (store msg.user_id (env.links msg.thing_fullname).fullname)) ∧
    (process_comment_vote cenv cstore cmsg).1.all
      (fun e => !e.isLockAcquire && !e.isUpdateUserLiked) = true := by
  refine ⟨?_, ?_, process_comment_vote_no_lock cenv cstore cmsg⟩ <;>
  · refine ⟨[Event.timerStart "link_vote_processor"],
      [Event.printProcessing (env.accounts msg.user_id).fullname
          (env.links msg.thing_fullname).fullname,
        Event.voteCommit msg.user_id (env.links msg.thing_fullname).fullname msg.direction,
        Event.timerIntermediate "link_vote_processor" "create_vote_object",
        Event.updateUserLiked msg.user_id (env.links msg.thing_fullname).fullname
          msg.direction (store msg.user_id (env.links msg.thing_fullname).fullname),
        Event.timerIntermediate "link_vote_processor" "voter_likes"],
      (if ((store msg.user_id (env.links msg.thing_fullname).fullname).isNone
            || env.affects_score (store msg.user_id (env.links msg.thing_fullname).fullname)
                 msg.direction)
          && !((env.links msg.thing_fullname).spam || (env.links msg.thing_fullname).deleted) then
          add_to_author_query_q env.g (env.links msg.thing_fullname)
            ++ add_to_subreddit_query_q env.g (env.links msg.thing_fullname)
            ++ add_to_domain_query_q env (env.links msg.thing_fullname)
        else [])
        ++ [Event.timerStop "link_vote_processor", Event.timerFlush "link_vote_processor",
            Event.processorStats "vote_link_q"], ?_, by simp⟩
    simp [process_link_vote, if_neg hh, hv]

theorem c2_lock_scope_witness :
    lockScoped (process_link_vote linkEnvW emptyStore linkMsgW).1 "voting"
      ("vote-" ++ (linkEnvW.accounts 1).id36 ++ "-" ++ (linkEnvW.links "t3_a").fullname) 5
      (Event.voteCommit 1 (linkEnvW.links "t3_a").fullname Dir.up) ∧
    lockScoped (process_link_vote linkEnvW emptyStore linkMsgW).1 "voting"
      ("vote-" ++ (linkEnvW.accounts 1).id36 ++ "-" ++ (linkEnvW.links "t3_a").fullname) 5
      (Event.updateUserLiked 1 (linkEnvW.links "t3_a").fullname Dir.up
        (emptyStore 1 (linkEnvW.links "t3_a").fullname)) ∧
    (process_comment_vote commentEnvW emptyStore msgW).1.all
      (fun e => !e.isLockAcquire && !e.isUpdateUserLiked) = true :=
  c2_lock_scope linkEnvW emptyStore linkMsgW (by decide) rfl commentEnvW emptyStore msgW

/-- C5: a dequeued vote message that the validation hook flags as
corrupt (verdict `some false`) is dropped by both consumers: the vote
store is unchanged (no Vote is created), the trace has no vote commit
and no fan-out (no queue enqueue, no listing `add_queries`), and the
queue-processor metrics still flush (the `amqp_processor` decorator
stats, modelled from the spec).  The embedding is a total function, so
nothing is raised. -/
theorem c5_corrupt_message_dropped (env : LinkEnv) (store : VoteStore) (msg : VoteMsg)
    (h : env.hook msg = some false)
    (cenv : CommentEnv) (cstore : VoteStore) (cmsg : VoteMsg)
    (hc : cenv.hook cmsg = some false) :
    ((process_link_vote env store msg).2 = store ∧
      (process_link_vote env store msg).1.all
        (fun e => !e.isVoteCommit && !e.isEnqueue && !e.isAddQueries) = true ∧
      Event.processorStats "vote_link_q" ∈ (process_link_vote env store msg).1) ∧
    ((process_comment_vote cenv cstore cmsg).2 = cstore ∧
      (process_comment_vote cenv cstore cmsg).1.all
        (fun e => !e.isVoteCommit && !e.isEnqueue && !e.isAddQueries) = true ∧
      Event.processorStats "vote_comment_q" ∈ (process_comment_vote cenv cstore cmsg).1) := by
  refine ⟨?_, ?_⟩ <;>
    simp [process_link_vote, process_comment_vote, h, hc,
      Event.isVoteCommit, Event.isEnqueue, Event.isAddQueries]

/-- A link environment whose validation hook rejects every message. -/
def rejectLinkEnvW : LinkEnv :=
  { linkEnvW with hook := fun _ => some false }

/-- A comment environment whose validation hook rejects every
message. -/
def rejectCommentEnvW : CommentEnv :=
  { commentEnvW with hook := fun _ => some false }

theorem c5_corrupt_message_dropped_witness :
    ((process_link_vote rejectLinkEnvW emptyStore linkMsgW).2 = emptyStore ∧
      (process_link_vote rejectLinkEnvW emptyStore linkMsgW).1.all
        (fun e => !e.isVoteCommit && !e.isEnqueue && !e.isAddQueries) = true ∧
      Event.processorStats "vote_link_q" ∈ (process_link_vote rejectLinkEnvW emptyStore linkMsgW).1) ∧
    ((process_comment_vote rejectCommentEnvW emptyStore msgW).2 = emptyStore ∧
      (process_comment_vote rejectCommentEnvW emptyStore msgW).1.all
        (fun e => !e.isVoteCommit && !e.isEnqueue && !e.isAddQueries) = true ∧
      Event.processorStats "vote_comment_q" ∈ (process_comment_vote rejectCommentEnvW emptyStore msgW).1) :=
  c5_corrupt_message_dropped rejectLinkEnvW emptyStore linkMsgW rfl
    rejectCommentEnvW emptyStore msgW rfl

/-- The vote store after one successfully processed link vote message
is the upsert of the message direction at the (actor, target) key. -/
theorem process_link_vote_store_eq (env : LinkEnv) (store : VoteStore) (msg : VoteMsg)
    (hh : ¬env.hook msg = some false)
    (hv : (env.links msg.thing_fullname).votable = true) :
    (process_link_vote env store msg).2 =
      vote_commit store msg.user_id (env.links msg.thing_fullname).fullname msg.direction := by
  simp [process_link_vote, if_neg hh, hv]

/-- C1: for every sequence of vote messages by the same actor on the
same target that the link vote consumer processes (validation passing,
target votable), the final Vote record direction is the direction of
the last message, independently of duplication of earlier messages in
the sequence: the commit is an upsert keyed by (actor, target). -/
theorem c1_last_direction_wins (env : LinkEnv) (u : Nat) (t : String)
    (hhook : ∀ m, ¬env.hook m = some false)
    (hvot : (env.links t).votable = true)
    (hname : (env.links t).fullname = t)
    (store : VoteStore) (ms : List VoteMsg) (last : VoteMsg)
    (hlast : ms.getLast? = some last)
    (hall : ∀ m ∈ ms, m.user_id = u ∧ m.thing_fullname = t) :
    (ms.foldl (fun s m => (process_link_vote env s m).2) store) u t
      = some last.direction := by
  induction ms generalizing store with
  | nil => simp at hlast
  | cons m rest ih =>
    obtain ⟨hmu, hmt⟩ := hall m (List.mem_cons_self m rest)
    have hstep : (process_link_vote env store m).2 = vote_commit store u t m.direction := by
      rw [process_link_vote_store_eq env store m (hhook m) (by rw [hmt]; exact hvot)]
      rw [hmt, hname, hmu]
    cases rest with
    | nil =>
      simp only [List.getLast?_singleton, Option.some.injEq] at hlast
      subst hlast
      simp [List.foldl, hstep, vote_commit]
    | cons m2 rest2 =>
      have h2 : (m2 :: rest2).getLast? = some last := by
        rw [← hlast, List.getLast?_cons_cons]
      rw [List.foldl_cons, hstep]
      exact ih (vote_commit store u t m.direction) h2
        (fun m' hm' => hall m' (List.mem_cons_of_mem _ hm'))

/-- A redelivered duplicate followed by a direction change by the same
actor on the same link. -/
def msgsW : List VoteMsg :=
  [⟨1, "t3_a", Dir.up, 1⟩, ⟨1, "t3_a", Dir.up, 2⟩, ⟨1, "t3_a", Dir.down, 3⟩]

theorem c1_last_direction_wins_witness :
    (msgsW.foldl (fun s m => (process_link_vote linkEnvW s m).2) emptyStore) 1 "t3_a"
      = some Dir.down :=
  c1_last_direction_wins linkEnvW 1 "t3_a"
    (fun m h => Option.noConfusion h) rfl rfl emptyStore msgsW
    ⟨1, "t3_a", Dir.down, 3⟩ rfl (by decide)

/-- The link consumer trace contains a fan-out enqueue exactly when
the committed vote is eligible: first vote or score-affecting, on a
target that is neither spam nor deleted. -/
theorem process_link_vote_any_enqueue (env : LinkEnv) (store : VoteStore) (msg : VoteMsg)
    (hh : ¬env.hook msg = some false)
    (hv : (env.links msg.thing_fullname).votable = true) :
    (process_link_vote env store msg).1.any Event.isEnqueue =
      (((store msg.user_id (env.links msg.thing_fullname).fullname).isNone
          || env.affects_score (store msg.user_id (env.links msg.thing_fullname).fullname)
               msg.direction)
        && !((env.links msg.thing_fullname).spam || (env.links msg.thing_fullname).deleted)) := by
  simp only [process_link_vote, if_neg hh, hv, if_true, List.any_append, List.any_cons]
  split
  · rename_i hc
    rw [hc]
    simp [add_to_author_query_q, List.any_append, Event.isEnqueue]
  · rename_i hc
    simp only [Bool.not_eq_true] at hc
    rw [hc]
    simp [Event.isEnqueue]

/-- The comment consumer trace contains the author-listing update
exactly when the committed vote is eligible. -/
theorem process_comment_vote_any_addQueries (env : CommentEnv) (store : VoteStore)
    (msg : VoteMsg)
    (hh : ¬env.hook msg = some false)
    (hv : (env.comments msg.thing_fullname).votable = true) :
    (process_comment_vote env store msg).1.any Event.isAddQueries =
      (((store msg.user_id (env.comments msg.thing_fullname).fullname).isNone
          || env.affects_score (store msg.user_id (env.comments msg.thing_fullname).fullname)
               msg.direction)
        && !((env.comments msg.thing_fullname).spam
          || (env.comments msg.thing_fullname).deleted)) := by
  simp only [process_comment_vote, if_neg hh, hv, if_true, List.any_append, List.any_cons]
  split
  · rename_i hc
    rw [hc]
    split <;> simp [Event.isAddQueries]
  · rename_i hc
    simp only [Bool.not_eq_true] at hc
    rw [hc]
    simp [Event.isAddQueries]

/-- C4: for a committed vote of either target kind, fan-out to the
derived-listing update queues happens iff (the vote is the first vote
by the actor on the target, i.e. no previous vote is stored, OR the vote
affects the target score) AND the target is neither spam nor deleted;
in particular a duplicate-direction re-vote (previous direction equal
to the new one) that does not affect the score triggers no fan-out. -/
theorem c4_fanout_eligibility (env : LinkEnv) (store : VoteStore) (msg : VoteMsg)
    (hh : ¬env.hook msg = some false)
    (hv : (env.links msg.thing_fullname).votable = true)
    (cenv : CommentEnv) (cstore : VoteStore) (cmsg : VoteMsg)
    (hch : ¬cenv.hook cmsg = some false)
    (hcv : (cenv.comments cmsg.thing_fullname).votable = true) :
    ((process_link_vote env store msg).1.any Event.isEnqueue = true ↔
      (((store msg.user_id (env.links msg.thing_fullname).fullname).isNone
          || env.affects_score (store msg.user_id (env.links msg.thing_fullname).fullname)
               msg.direction)
        && !((env.links msg.thing_fullname).spam || (env.links msg.thing_fullname).deleted))
        = true) ∧
    ((process_comment_vote cenv cstore cmsg).1.any Event.isAddQueries = true ↔
      (((cstore cmsg.user_id (cenv.comments cmsg.thing_fullname).fullname).isNone
          || cenv.affects_score (cstore cmsg.user_id (cenv.comments cmsg.thing_fullname).fullname)
               cmsg.direction)
        && !((cenv.comments cmsg.thing_fullname).spam
          || (cenv.comments cmsg.thing_fullname).deleted))
        = true) ∧
    (store msg.user_id (env.links msg.thing_fullname).fullname = some msg.direction →
      env.affects_score (some msg.direction) msg.direction = false →
      (process_link_vote env store msg).1.any Event.isEnqueue = false) := by
  refine ⟨?_, ?_, ?_⟩
  · rw [process_link_vote_any_enqueue env store msg hh hv]
  · rw [process_comment_vote_any_addQueries cenv cstore cmsg hch hcv]
  · intro h1 h2
    rw [process_link_vote_any_enqueue env store msg hh hv, h1, h2]
    simp

theorem c4_fanout_eligibility_witness :
    ((process_link_vote linkEnvW emptyStore linkMsgW).1.any Event.isEnqueue = true ↔
      (((emptyStore 1 (linkEnvW.links "t3_a").fullname).isNone
          || linkEnvW.affects_score (emptyStore 1 (linkEnvW.links "t3_a").fullname) Dir.up)
        && !((linkEnvW.links "t3_a").spam || (linkEnvW.links "t3_a").deleted)) = true) ∧
    ((process_comment_vote commentEnvW emptyStore msgW).1.any Event.isAddQueries = true ↔
      (((emptyStore 1 (commentEnvW.comments "t1_c").fullname).isNone
          || commentEnvW.affects_score (emptyStore 1 (commentEnvW.comments "t1_c").fullname) Dir.up)
        && !((commentEnvW.comments "t1_c").spam || (commentEnvW.comments "t1_c").deleted)) = true) ∧
    (emptyStore 1 (linkEnvW.links "t3_a").fullname = some Dir.up →
      linkEnvW.affects_score (some Dir.up) Dir.up = false →
      (process_link_vote linkEnvW emptyStore linkMsgW).1.any Event.isEnqueue = false) :=
  c4_fanout_eligibility linkEnvW emptyStore linkMsgW (fun h => Option.noConfusion h) rfl
    commentEnvW emptyStore msgW (fun h => Option.noConfusion h) rfl

/-- Author fan-out never targets a domain queue. -/
theorem add_to_author_query_q_no_domain (g : Globals) (link : Link) :
    (add_to_author_query_q g link).any Event.isDomainEnqueue = false := by
  simp only [add_to_author_query_q]
  split <;> rfl

/-- Subreddit fan-out never targets a domain queue. -/
theorem add_to_subreddit_query_q_no_domain (g : Globals) (link : Link) :
    (add_to_subreddit_query_q g link).any Event.isDomainEnqueue = false := by
  simp only [add_to_subreddit_query_q]
  split <;> rfl

/-- C6: the domain fan-out enqueues the target fullname iff the URL
yields at least one domain permutation; with sharding enabled the
queue is the domain queue with shard `hash(hostname) % 10`; and the
full consumer trace of a vote on a target without a parseable domain
contains no enqueue onto any domain queue. -/
theorem c6_domain_fanout (env : LinkEnv) (link : Link) (store : VoteStore) (msg : VoteMsg)
    (hshard : env.g.shard_domain_query_queues = true)
    (hperm : env.domain_permutations link.url ≠ [])
    (hnone : env.domain_permutations (env.links msg.thing_fullname).url = []) :
    (add_to_domain_query_q env link ≠ [] ↔ env.domain_permutations link.url ≠ []) ∧
    add_to_domain_query_q env link =
      [Event.enqueue (Queue.domain (some (env.hashFn (env.hostname link.url) % 10)))
        link.fullname] ∧
    (process_link_vote env store msg).1.any Event.isDomainEnqueue = false := by
  refine ⟨?_, ?_, ?_⟩
  · unfold add_to_domain_query_q
    split
    · rename_i h
      simp [h]
    · rename_i h
      simp [h]
  · simp only [add_to_domain_query_q, if_neg hperm, hshard, if_true]
  · simp only [process_link_vote]
    split
    · rfl
    · split
      · simp only [List.any_append, List.any_cons, List.any_nil]
        split
        · simp [List.any_append, add_to_author_query_q_no_domain,
            add_to_subreddit_query_q_no_domain, add_to_domain_query_q, hnone,
            Event.isDomainEnqueue]
        · simp [Event.isDomainEnqueue]
      · rfl

/-- A link whose URL has no parseable domain. -/
def linkNoDomW : Link :=
  { fullname := "t3_n", author_id := 8, sr_id := 9, url := "nodomain"
    spam := false, deleted := false, votable := true }

/-- A vote message on the domainless link. -/
def msgNoDomW : VoteMsg := ⟨1, "t3_n", Dir.up, 100⟩

/-- A link environment resolving both sample links, whose URL parser
finds permutations only for the example URL. -/
def mixedLinkEnvW : LinkEnv :=
  { g := gW, accounts := fun _ => acctW
    links := fun n => if n = "t3_n" then linkNoDomW else linkW
    hook := fun _ => none
    affects_score := fun p d => p != some d
    hashFn := fun s => (s.length : Int)
    domain_permutations := fun u =>
      if u = "http://example.com/x" then ["example.com", "www.example.com"] else []
    hostname := fun _ => "example.com" }

theorem c6_domain_fanout_witness :
    (add_to_domain_query_q mixedLinkEnvW linkW ≠ [] ↔
      mixedLinkEnvW.domain_permutations linkW.url ≠ []) ∧
    add_to_domain_query_q mixedLinkEnvW linkW =
      [Event.enqueue
        (Queue.domain (some (mixedLinkEnvW.hashFn (mixedLinkEnvW.hostname linkW.url) % 10)))
        linkW.fullname] ∧
    (process_link_vote mixedLinkEnvW emptyStore msgNoDomW).1.any Event.isDomainEnqueue
      = false :=
  c6_domain_fanout mixedLinkEnvW linkW emptyStore msgNoDomW rfl (by decide) (by decide)

/-- The events emitted for the first failing group of the remainder of
a batch: the group timer starts and the failure raises out of the
loop; an empty remainder emits nothing. -/
def failureEvents {κ : Type} (tn : String) (keyStr : κ → String) :
    List (κ × List Link) → List Event
  | [] => []
  | p :: _ => [Event.timerStart tn, Event.groupFailure (keyStr p.1)]

/-- The per-group loop processes exactly the groups preceding the
first failing group, then stops at the failure (if any): the Python
`for` loop has no per-group exception handling, so a raise aborts the
remaining iterations. -/
theorem runGroups_eq {κ : Type} (fails : κ → Bool) (keyStr : κ → String)
    (tn : String) (mk : κ → List Link → Event) (gs : List (κ × List Link)) :
    runGroups fails keyStr tn mk gs =
      ((gs.takeWhile (fun p => !fails p.1)).flatMap
          (fun p => [Event.timerStart tn, mk p.1 p.2, Event.timerStop tn])
        ++ failureEvents tn keyStr (gs.dropWhile (fun p => !fails p.1)),
       (gs.dropWhile (fun p => !fails p.1)).isEmpty) := by
  induction gs with
  | nil => rfl
  | cons g rest ih =>
    obtain ⟨k, ls⟩ := g
    by_cases h : fails k
    · simp [runGroups, h, List.takeWhile_cons, List.dropWhile_cons, failureEvents]
    · simp only [Bool.not_eq_true] at h
      simp [runGroups, h, List.takeWhile_cons, List.dropWhile_cons, ih]

/-- A second sample account. -/
def acct2W : Account := ⟨2, "2", "t2_2"⟩

/-- A second sample link, by a different author. -/
def linkBW : Link :=
  { fullname := "t3_b", author_id := 2, sr_id := 4, url := "http://example.com/y"
    spam := false, deleted := false, votable := true }

/-- An author consumer environment in which the locked listing update
for the author group of `linkW` (author 7) fails. -/
def authorEnvW : AuthorEnv :=
  { links := fun n => if n = "t3_b" then linkBW else linkW
    accounts := fun i => if i = 2 then acct2W else acctW
    author_fails := fun i => i == 7 }

/-- C7 counterexample: a batch of two links by two distinct authors in
which the locked update of the first author group fails; the listing
insertion of the second group never happens, so a failure in one
dimension group does abort the processing of the other groups of the
same batch. -/
theorem c7_counterexample :
    (7, [linkW]) ∈ groupByKey Link.author_id (resolve_links authorEnvW.links ["t3_a", "t3_b"]) ∧
    (2, [linkBW]) ∈ groupByKey Link.author_id (resolve_links authorEnvW.links ["t3_a", "t3_b"]) ∧
    authorEnvW.author_fails 7 = true ∧
    authorEnvW.author_fails 2 = false ∧
    (process_author_query_batch authorEnvW ["t3_a", "t3_b"]).2 = false ∧
    Event.addQueries (author_queries acct2W) [linkBW.fullname]
      ∉ (process_author_query_batch authorEnvW ["t3_a", "t3_b"]).1 := by
  decide

/-- C7 (amended): in the author and domain derived-listing consumers a
lock/update failure in one dimension group aborts the processing of
all subsequent groups in the batch: the trace consists of exactly the
groups preceding the first failing group (in iteration order),
followed by the failure, and the batch completes iff no group fails. -/
theorem c7_group_failure_aborts_rest (envA : AuthorEnv) (bodiesA : List String)
    (envD : DomainEnv) (bodiesD : List String) :
    process_author_query_batch envA bodiesA =
      (((groupByKey Link.author_id (resolve_links envA.links bodiesA)).takeWhile
            (fun p => !envA.author_fails p.1)).flatMap
          (fun p => [Event.timerStart "link_vote_processor.author_queries",
            Event.addQueries (author_queries (envA.accounts p.1)) (p.2.map Link.fullname),
            Event.timerStop "link_vote_processor.author_queries"])
        ++ failureEvents "link_vote_processor.author_queries" toString
            ((groupByKey Link.author_id (resolve_links envA.links bodiesA)).dropWhile
              (fun p => !envA.author_fails p.1)),
        ((groupByKey Link.author_id (resolve_links envA.links bodiesA)).dropWhile
          (fun p => !envA.author_fails p.1)).isEmpty) ∧
    process_domain_query_batch envD bodiesD =
      (((groupByDomain envD.domain_permutations (resolve_links envD.links bodiesD)).takeWhile
            (fun p => !envD.domain_fails p.1)).flatMap
          (fun p => [Event.timerStart "link_vote_processor.domain_queries",
            Event.addQueries (domain_queries p.1) (p.2.map Link.fullname),
            Event.timerStop "link_vote_processor.domain_queries"])
        ++ failureEvents "link_vote_processor.domain_queries" id
            ((groupByDomain envD.domain_permutations (resolve_links envD.links bodiesD)).dropWhile
              (fun p => !envD.domain_fails p.1)),
        ((groupByDomain envD.domain_permutations (resolve_links envD.links bodiesD)).dropWhile
          (fun p => !envD.domain_fails p.1)).isEmpty) := by
  unfold process_author_query_batch process_domain_query_batch
  exact ⟨runGroups_eq _ _ _ _ _, runGroups_eq _ _ _ _ _⟩

/-- C9 counterexample: with threshold 5, period 3 and a comment that
already has exactly 5 votes, the consumer does enqueue the
comments-tree recompute (the source comparison is `num_votes <=
threshold`), although 5 is not below the threshold and 5 is not a
multiple of the period, so the claim with a strict "below" is false. -/
theorem c9_counterexample :
    Event.addToCommentsTree "t1_c" ∈ (process_comment_vote commentEnvW emptyStore msgW).1 ∧
    ¬(commentW.num_votes < gW.comment_vote_update_threshold ∨
      commentW.num_votes % gW.comment_vote_update_period = 0) := by
  decide

/-- C9 (amended): for every committed, eligible comment vote, the
comments-tree score recompute is enqueued iff the comment vote count
is at or below the configured threshold, or is a multiple of the
configured period. -/
theorem c9_recompute_threshold (env : CommentEnv) (store : VoteStore) (msg : VoteMsg)
    (hh : ¬env.hook msg = some false)
    (hv : (env.comments msg.thing_fullname).votable = true)
    (helig : (((store msg.user_id (env.comments msg.thing_fullname).fullname).isNone
        || env.affects_score (store msg.user_id (env.comments msg.thing_fullname).fullname)
             msg.direction)
      && !((env.comments msg.thing_fullname).spam
        || (env.comments msg.thing_fullname).deleted)) = true) :
    Event.addToCommentsTree (env.comments msg.thing_fullname).fullname
        ∈ (process_comment_vote env store msg).1 ↔
      ((env.comments msg.thing_fullname).num_votes ≤ env.g.comment_vote_update_threshold ∨
       (env.comments msg.thing_fullname).num_votes % env.g.comment_vote_update_period = 0) := by
  simp only [process_comment_vote, if_neg hh, hv, if_true, helig,
    List.mem_append, List.mem_cons]
  split
  · rename_i hcond
    simp [hcond]
  · rename_i hcond
    simp [hcond]

theorem c9_recompute_threshold_witness :
    Event.addToCommentsTree (commentEnvW.comments "t1_c").fullname
        ∈ (process_comment_vote commentEnvW emptyStore msgW).1 ↔
      ((commentEnvW.comments "t1_c").num_votes ≤ commentEnvW.g.comment_vote_update_threshold ∨
       (commentEnvW.comments "t1_c").num_votes % commentEnvW.g.comment_vote_update_period
         = 0) :=
  c9_recompute_threshold commentEnvW emptyStore msgW (fun h => Option.noConfusion h) rfl
    (by decide)

/-- Every group of a batch grouping carries pairwise distinct target
fullnames. -/
def groupsFullnameNodup {κ : Type} (gs : List (κ × List Link)) : Prop :=
  ∀ p ∈ gs, (p.2.map Link.fullname).Nodup

/-- C10: the derived-listing consumers collapse duplicate message
bodies before processing: the resolved batch contains each distinct
body exactly once, and every dimension group (author, subreddit, or
domain) passes each distinct target to its listing insertion at most
once per batch. -/
theorem c10_batch_dedup (byFullname : String → Link)
    (h : ∀ n, (byFullname n).fullname = n)
    (bodies : List String) (perms : String → List String) :
    (resolve_links byFullname bodies).map Link.fullname = bodies.dedup ∧
    ((resolve_links byFullname bodies).map Link.fullname).Nodup ∧
    groupsFullnameNodup (groupByKey Link.author_id (resolve_links byFullname bodies)) ∧
    groupsFullnameNodup (groupByKey Link.sr_id (resolve_links byFullname bodies)) ∧
    groupsFullnameNodup (groupByDomain perms (resolve_links byFullname bodies)) := by
  have h1 : (resolve_links byFullname bodies).map Link.fullname = bodies.dedup := by
    unfold resolve_links
    rw [List.map_map]
    have : bodies.dedup.map (Link.fullname ∘ byFullname) = bodies.dedup.map id :=
      List.map_congr_left (fun a _ => h a)
    rw [this, List.map_id]
  have h2 : ((resolve_links byFullname bodies).map Link.fullname).Nodup := by
    rw [h1]
    exact bodies.nodup_dedup
  refine ⟨h1, h2, ?_, ?_, ?_⟩ <;>
  · intro p hp
    simp only [groupByKey, groupByDomain, List.mem_map] at hp
    obtain ⟨k, hk, rfl⟩ := hp
    exact h2.sublist ((List.filter_sublist _).map Link.fullname)

/-- A resolver returning a link whose fullname is the looked-up
name. -/
def byFullnameW : String → Link := fun n =>
  { fullname := n, author_id := 1, sr_id := 1, url := "u"
    spam := false, deleted := false, votable := true }

theorem c10_batch_dedup_witness :
    (resolve_links byFullnameW ["t3_a", "t3_b", "t3_a"]).map Link.fullname
      = ["t3_a", "t3_b", "t3_a"].dedup ∧
    ((resolve_links byFullnameW ["t3_a", "t3_b", "t3_a"]).map Link.fullname).Nodup ∧
    groupsFullnameNodup
      (groupByKey Link.author_id (resolve_links byFullnameW ["t3_a", "t3_b", "t3_a"])) ∧
    groupsFullnameNodup
      (groupByKey Link.sr_id (resolve_links byFullnameW ["t3_a", "t3_b", "t3_a"])) ∧
    groupsFullnameNodup
      (groupByDomain (fun _ => ["example.com"])
        (resolve_links byFullnameW ["t3_a", "t3_b", "t3_a"])) :=
  c10_batch_dedup byFullnameW (fun _ => rfl) ["t3_a", "t3_b", "t3_a"]
    (fun _ => ["example.com"])

end Voting
